import Mathlib

/-!
Verification of the orchestration logic of the CAMEL / ACI.dev object-detection
cookbook notebook (`camel-aci.ipynb`).

The notebook is straight-line code: it reads credentials with `os.getenv`,
builds a declarative MCP server-configuration dictionary, connects an
`MCPToolkit`, constructs a Gemini model and a `ChatAgent` with a fixed system
prompt, iterates over a fixed tuple of task strings calling `agent.astep` and
printing `response.msg.content`, and finally disconnects the toolkit.

We embed the notebook shallowly: the ambient process environment is a function
`String → Option String` (mirroring `os.getenv`), the configuration
dictionaries are Lean structures with the same fields and literal values, and
the driver is a function producing the ordered trace of observable events
(connect, agent invocation, console print, disconnect).  External collaborators
(the CAMEL `ChatAgent.astep` call) are parameters: a step function
`String → Except ε Response`, so both the all-successful runs and the runs in
which the agent raises are covered.
-/

/-- The ambient process environment: a partial map from variable names to
values, mirroring what `os.getenv` can observe. -/
def Env : Type := String → Option String

/-- Shallow embedding of `os.getenv`: look a key up in the ambient
environment, `none` when absent (Python returns `None`). -/
def getenv (env : Env) (key : String) : Option String :=
  env key

/-- Point update of an environment, used to express which variables a
configuration value does (or does not) depend on. -/
def updateEnv (env : Env) (key : String) (v : Option String) : Env :=
  fun k => if k = key then v else env k

/-- Source: `agent_name = "ObjectDetectionAgent"`. -/
def agent_name : String := "ObjectDetectionAgent"

/-- Source: the `system_prompt` triple-quoted string literal, verbatim
(including the stray inner quote characters of the original). -/
def system_prompt : String :=
  "\nYou are a specialized Object Detection Agent. Your primary function is to use the `REPLICATE.run` tool for object detection and present the findings in a user-friendly format. \"\n\"The user will provide a text prompt containing an image URL and a query. You must extract the `image` URL and the `query` object(s). \"\n\"Immediately call the `REPLICATE.run` tool. The `input` must be a dictionary with two keys: `image` (the URL) and `query` (a string of the object(s)). \"\n\"Do not ask for clarification; make a reasonable inference if the query is ambiguous. \"\n\"After receiving the tool\x27s output, format your response as follows: \"\n\"- **Natural Language Summary:** Start with a detailed friendly, insightful analysis of the detection results in plain English. \"\n\"- **Markdown Table:** Create a markdown table with columns: \x27Object\x27, \x27Confidence Score\x27, and \x27Bounding Box Coordinates\x27. \"\n\"- **Result Image:** If the tool provides a URL for an image with bounding boxes, display it using markdown: `![Detected Objects](URL_HERE)`. \"\n\"Whenever I give you a link, trigger the tool call, extract its outputs and links, and present me in a proper markdown format with detailed analysis from the tool call in natural language.\n"

/-- One server entry of the MCP configuration dictionary: launch command,
argument list, and environment-variable mapping (values are `Option` because
`os.getenv` may yield `None`). -/
structure ServerConfig where
  command : String
  args : List String
  env : List (String × Option String)
deriving DecidableEq, Repr

/-- The whole `mcp_config` dictionary: a mapping from server names to their
server configuration. -/
structure MCPConfig where
  mcpServers : List (String × ServerConfig)
deriving DecidableEq, Repr

/-- Source: the `mcp_config` dictionary literal.  The only environment read is
`os.getenv("ACI_API_KEY")`; the linked-account owner id is the string literal
`"parthshr370"` inside the argument list. -/
def mcp_config (env : Env) : MCPConfig :=
  ⟨[("aci_apps",
      ⟨"aci-mcp",
       ["apps-server", "--apps=REPLICATE", "--linked-account-owner-id",
        "parthshr370"],
       [("ACI_API_KEY", getenv env "ACI_API_KEY")]⟩)]⟩

/-- The keys bound in the environment mappings of the configuration record. -/
def configEnvKeys (env : Env) : List String :=
  (mcp_config env).mcpServers.flatMap (fun p => p.2.env.map Prod.fst)

/-- Source: `MCPToolkit(config_dict=mcp_config)` — the toolkit object holds
the configuration record it was handed. -/
structure MCPToolkit where
  config_dict : MCPConfig
deriving DecidableEq, Repr

/-- Source: `mcp_toolkit = MCPToolkit(config_dict=mcp_config)`. -/
def mcp_toolkit (env : Env) : MCPToolkit :=
  ⟨mcp_config env⟩

/-- A tool descriptor returned by `mcp_toolkit.get_tools()`.  The content is
produced by the external tool server, so it stays abstract here. -/
structure Tool where
  name : String
deriving DecidableEq, Repr

/-- Source: `ModelPlatformType.GEMINI` (the only platform used). -/
inductive ModelPlatformType where
  | GEMINI
deriving DecidableEq, Repr

/-- Source: the `model_config_dict={"temperature": 0.0, "max_tokens": 4096}`
literal. -/
structure ModelConfigDict where
  temperature : Rat
  max_tokens : Nat
deriving DecidableEq, Repr

/-- The model client record assembled by `ModelFactory.create`. -/
structure Model where
  model_platform : ModelPlatformType
  model_type : String
  api_key : Option String
  model_config_dict : ModelConfigDict
deriving DecidableEq, Repr

/-- Source: `ModelFactory.create(...)` — packages its arguments into the
model record. -/
def ModelFactory.create (model_platform : ModelPlatformType)
    (model_type : String) (api_key : Option String)
    (model_config_dict : ModelConfigDict) : Model :=
  ⟨model_platform, model_type, api_key, model_config_dict⟩

/-- Source: the `model = ModelFactory.create(...)` cell.  The only environment
read is `os.getenv("GOOGLE_API_KEY")`. -/
def model (env : Env) : Model :=
  ModelFactory.create ModelPlatformType.GEMINI "gemini-2.5-flash"
    (getenv env "GOOGLE_API_KEY") ⟨0, 4096⟩

/-- A CAMEL `BaseMessage`: role name and content. -/
structure BaseMessage where
  role_name : String
  content : String
deriving DecidableEq, Repr

/-- Source: `BaseMessage.make_assistant_message(role_name=..., content=...)`. -/
def BaseMessage.make_assistant_message (role_name : String)
    (content : String) : BaseMessage :=
  ⟨role_name, content⟩

/-- Source: `sys_msg = BaseMessage.make_assistant_message(role_name=agent_name,
content=system_prompt)`. -/
def sys_msg : BaseMessage :=
  BaseMessage.make_assistant_message agent_name system_prompt

/-- The CAMEL `ChatAgent` record as constructed by the notebook: a model
client, a system message, the tool list, and `memory=None`. -/
structure ChatAgent where
  model : Model
  system_message : BaseMessage
  tools : List Tool
  memory : Option Unit
deriving DecidableEq, Repr

/-- Source: `agent = ChatAgent(model=model, system_message=sys_msg,
tools=tools, memory=None)`.  The tool list comes from the connected toolkit
(`mcp_toolkit.get_tools()`), an external collaborator, so it is a parameter. -/
def agent (env : Env) (tools : List Tool) : ChatAgent :=
  ⟨model env, sys_msg, tools, none⟩

/-- The message inside an agent response; only its `content` field is used
(`response.msg.content`). -/
structure Msg where
  content : String
deriving DecidableEq, Repr

/-- An agent response as observed by the driver: `response.msg`. -/
structure Response where
  msg : Msg
deriving DecidableEq, Repr

/-- Source: the `tasks` tuple — the three fixed example prompts. -/
def tasks : List String :=
  ["Analyze the vegetable stall and identify all produce, including tomato, onion, cabbage, cucumber, zucchini, carrot, and beet, in this image: https://images.pexels.com/photos/2255935/pexels-photo-2255935.jpeg",
   "Analyze the busy street scene and identify all vehicles, such as car, bus, and truck, as well as people, in this image: https://www.livemint.com/rf/Image-621x414/LiveMint/Period1/2012/10/01/Photos/Road621.jpg",
   "Analyze the warehouse scene and identify persons, cardboard boxes, and conveyor belts in this image: https://media.business-humanrights.org/media/images/16278498935_dac4d8f223_o.2e16d0ba.fill-1000x1000-c50.jpg"]

/-- The observable events of a notebook run, in order of occurrence:
`connect cfg` is `await mcp_toolkit.connect()` with the configuration the
toolkit owns; `invoke sysMsg task` is `await agent.astep(task)` recording the
system instruction in effect; `printOut s` is one `print` call emitting the
text `s` to standard output; `disconnect` is `await mcp_toolkit.disconnect()`. -/
inductive Event where
  | connect (cfg : MCPConfig)
  | invoke (sysMsg : String) (task : String)
  | printOut (text : String)
  | disconnect
deriving DecidableEq, Repr

/-- The task of an agent-invocation event, `none` for other events. -/
def Event.invokedTask : Event → Option String
  | Event.invoke _ t => some t
  | _ => none

/-- The text of a console-output event, `none` for other events. -/
def Event.printedText : Event → Option String
  | Event.printOut s => some s
  | _ => none

/-- The configuration of a connect event, `none` for other events. -/
def Event.connectedConfig : Event → Option MCPConfig
  | Event.connect c => some c
  | _ => none

/-- Source: the `for task in tasks:` loop.  Each iteration awaits
`agent.astep(task)` and then prints `response.msg.content` (Python `print`
appends a single newline).  A raised exception (`Except.error`) stops the
iteration there; no handler exists, so the error is returned alongside the
events that happened before the failure. -/
def taskLoop {ε : Type} (sysMsg : String)
    (astep : String → Except ε Response) :
    List String → List Event × Option ε
  | [] => ([], none)
  | t :: ts =>
    match astep t with
    | Except.error e => ([Event.invoke sysMsg t], some e)
    | Except.ok r =>
      let rest := taskLoop sysMsg astep ts
      (Event.invoke sysMsg t :: Event.printOut (r.msg.content ++ "\n") :: rest.1,
       rest.2)

/-- The whole notebook run, as the ordered trace of its observable events:
connect the toolkit with its configuration record, construct the agent, run
the task loop, and — only when no task raised — disconnect.  An unhandled
exception in the loop means the final `await mcp_toolkit.disconnect()` cell is
never reached. -/
def runNotebook {ε : Type} (env : Env) (tools : List Tool)
    (astep : String → Except ε Response) (ts : List String) :
    List Event × Option ε :=
  let toolkit := mcp_toolkit env
  let ag := agent env tools
  let loop := taskLoop ag.system_message.content astep ts
  match loop.2 with
  | none => (Event.connect toolkit.config_dict :: loop.1 ++ [Event.disconnect], none)
  | some e => (Event.connect toolkit.config_dict :: loop.1, some e)

/-- Model of the external `python-dotenv` `load_dotenv` collaborator (with its
default non-override semantics: an already-set process variable wins over the
`.env` file).  The notebook imports it but never calls it; it appears here
only to state what the notebook's reads would have observed had it been
called. -/
def load_dotenv (ambient : Env) (dotfile : Env) : Env :=
  fun k =>
    match ambient k with
    | some v => some v
    | none => dotfile k

/-- An environment in which every variable, in particular each of the four
secrets the notebook's documentation names, is absent. -/
def env0 : Env := fun _ => none

/-- The events emitted by a task loop in which every agent call succeeds:
for each task in order, its invocation followed by the print of its response
content (with the newline `print` appends). -/
def loopEvents (sysMsg : String) (out : String → String)
    (ts : List String) : List Event :=
  ts.flatMap (fun t => [Event.invoke sysMsg t, Event.printOut (out t)])

lemma taskLoop_ok {ε : Type} (sysMsg : String) (f : String → Response) :
    ∀ ts : List String,
      taskLoop sysMsg (fun t => (Except.ok (f t) : Except ε Response)) ts =
        (loopEvents sysMsg (fun t => (f t).msg.content ++ "\n") ts, none)
  | [] => rfl
  | t :: ts => by
    simp [taskLoop, loopEvents, taskLoop_ok sysMsg f ts]

lemma runNotebook_ok {ε : Type} (env : Env) (tools : List Tool)
    (f : String → Response) (ts : List String) :
    runNotebook env tools (fun t => (Except.ok (f t) : Except ε Response)) ts =
      (Event.connect (mcp_config env) ::
         (loopEvents system_prompt (fun t => (f t).msg.content ++ "\n") ts ++
           [Event.disconnect]), none) := by
  simp only [runNotebook, taskLoop_ok]
  rfl

lemma loopEvents_nil (sysMsg : String) (out : String → String) :
    loopEvents sysMsg out [] = [] := rfl

lemma loopEvents_cons (sysMsg : String) (out : String → String)
    (t : String) (ts : List String) :
    loopEvents sysMsg out (t :: ts) =
      Event.invoke sysMsg t :: Event.printOut (out t) ::
        loopEvents sysMsg out ts := rfl

lemma loopEvents_filterMap_invoked (sysMsg : String) (out : String → String) :
    ∀ ts : List String,
      (loopEvents sysMsg out ts).filterMap Event.invokedTask = ts
  | [] => rfl
  | t :: ts => by
    simp [loopEvents_cons, Event.invokedTask,
      loopEvents_filterMap_invoked sysMsg out ts]

lemma loopEvents_filterMap_printed (sysMsg : String) (out : String → String) :
    ∀ ts : List String,
      (loopEvents sysMsg out ts).filterMap Event.printedText = ts.map out
  | [] => rfl
  | t :: ts => by
    simp [loopEvents_cons, Event.printedText,
      loopEvents_filterMap_printed sysMsg out ts]

lemma loopEvents_disconnect_not_mem (sysMsg : String) (out : String → String) :
    ∀ ts : List String, Event.disconnect ∉ loopEvents sysMsg out ts
  | [] => by simp [loopEvents_nil]
  | t :: ts => by
    simp [loopEvents_cons]
    exact loopEvents_disconnect_not_mem sysMsg out ts

lemma loopEvents_count_disconnect (sysMsg : String) (out : String → String)
    (ts : List String) :
    (loopEvents sysMsg out ts).count Event.disconnect = 0 :=
  List.count_eq_zero.mpr (loopEvents_disconnect_not_mem sysMsg out ts)

lemma taskLoop_no_connect {ε : Type} (sysMsg : String)
    (astep : String → Except ε Response) :
    ∀ ts : List String,
      (taskLoop sysMsg astep ts).1.filterMap Event.connectedConfig = []
  | [] => rfl
  | t :: ts => by
    cases h : astep t with
    | error e => simp [taskLoop, h, Event.connectedConfig]
    | ok r =>
      simp [taskLoop, h, Event.connectedConfig,
        taskLoop_no_connect sysMsg astep ts]

lemma taskLoop_invoke_sysMsg {ε : Type} (sysMsg : String)
    (astep : String → Except ε Response) :
    ∀ (ts : List String) (s t : String),
      Event.invoke s t ∈ (taskLoop sysMsg astep ts).1 → s = sysMsg
  | [], s, t => by simp [taskLoop]
  | t0 :: ts, s, t => by
    cases h : astep t0 with
    | error e =>
      simp [taskLoop, h]
      intro hs _
      exact hs
    | ok r =>
      simp [taskLoop, h]
      rintro (⟨hs, _⟩ | hmem)
      · exact hs
      · exact taskLoop_invoke_sysMsg sysMsg astep ts s t hmem

lemma loopEvents_adjacent (sysMsg : String) (out : String → String) :
    ∀ (ts : List String) (i : Nat), (h : i + 1 < ts.length) →
      ∃ pre post,
        loopEvents sysMsg out ts =
          pre ++ Event.printOut (out ts[i]) ::
            Event.invoke sysMsg ts[i + 1] :: post
  | [], i, h => by simp at h
  | t :: ts, 0, h => by
    match ts, h with
    | t2 :: ts2, _ =>
      refine ⟨[Event.invoke sysMsg t],
        Event.printOut (out t2) :: loopEvents sysMsg out ts2, ?_⟩
      simp [loopEvents_cons]
  | t :: ts, i + 1, h => by
    have hts : i + 1 < ts.length := by
      simpa using Nat.lt_of_succ_lt_succ h
    obtain ⟨pre, post, hsp⟩ := loopEvents_adjacent sysMsg out ts i hts
    refine ⟨Event.invoke sysMsg t :: Event.printOut (out t) :: pre, post, ?_⟩
    simp [loopEvents_cons, hsp]

/-- An environment that binds the account-linking identifier and the
model-provider access token (and nothing else), used to show the notebook
never reads them. -/
def envLinked : Env := fun k =>
  if k = "LINKED_ACCOUNT_OWNER_ID" then some "someone-else"
  else if k = "REPLICATE_API_TOKEN" then some "r8-secret" else none

/-- C1 counterexample: the claim says all four named secrets are obtained by
reads of the ambient environment, but in an environment binding
`LINKED_ACCOUNT_OWNER_ID` to `"someone-else"` and `REPLICATE_API_TOKEN` to
`"r8-secret"`, the configuration and the model record are identical to the
ones built in the empty environment: neither secret is ever read.  The
account-linking identifier actually used is the hardcoded literal
`"parthshr370"`, not the environment's value. -/
theorem hardcoded_linked_account_counterexample :
    envLinked "LINKED_ACCOUNT_OWNER_ID" = some "someone-else" ∧
    envLinked "REPLICATE_API_TOKEN" = some "r8-secret" ∧
    mcp_config envLinked = mcp_config env0 ∧
    model envLinked = model env0 ∧
    (mcp_config envLinked).mcpServers.flatMap (fun p => p.2.args) =
      ["apps-server", "--apps=REPLICATE", "--linked-account-owner-id",
       "parthshr370"] ∧
    "someone-else" ∉ (mcp_config envLinked).mcpServers.flatMap
      (fun p => p.2.args) := by
  refine ⟨rfl, rfl, rfl, rfl, rfl, ?_⟩
  decide

/-- C1 amended: exactly two of the four named secrets are obtained by reads of
the ambient environment — the tool-platform API key `ACI_API_KEY` (bound into
the server configuration's environment mapping) and the language-model
provider key `GOOGLE_API_KEY` (passed as the model's `api_key`).  The
account-linking identifier is the hardcoded literal `"parthshr370"`, and the
model-provider access token is never read: rebinding either variable changes
neither the configuration record nor the model record. -/
theorem env_reads_exactly_two_secrets (env : Env) :
    (mcp_config env).mcpServers =
      [("aci_apps",
        ⟨"aci-mcp",
         ["apps-server", "--apps=REPLICATE", "--linked-account-owner-id",
          "parthshr370"],
         [("ACI_API_KEY", getenv env "ACI_API_KEY")]⟩)] ∧
    (model env).api_key = getenv env "GOOGLE_API_KEY" ∧
    (∀ v, mcp_config (updateEnv env "LINKED_ACCOUNT_OWNER_ID" v) =
            mcp_config env ∧
          model (updateEnv env "LINKED_ACCOUNT_OWNER_ID" v) = model env) ∧
    (∀ v, mcp_config (updateEnv env "REPLICATE_API_TOKEN" v) =
            mcp_config env ∧
          model (updateEnv env "REPLICATE_API_TOKEN" v) = model env) := by
  refine ⟨rfl, rfl, fun v => ⟨?_, ?_⟩, fun v => ⟨?_, ?_⟩⟩ <;>
    simp [mcp_config, model, ModelFactory.create, getenv, updateEnv]

/-- C7 counterexample: the claim says that when any of the four named secrets
is absent, the configuration record still contains the corresponding key bound
to an absent value.  In the all-absent environment the configuration record's
environment mappings bind exactly the key `ACI_API_KEY`: there is no key at
all for `REPLICATE_API_TOKEN` (nor for `LINKED_ACCOUNT_OWNER_ID`), so the
claimed key-preservation fails for those secrets. -/
theorem config_lacks_keys_for_unread_secrets :
    env0 "REPLICATE_API_TOKEN" = none ∧
    env0 "LINKED_ACCOUNT_OWNER_ID" = none ∧
    configEnvKeys env0 = ["ACI_API_KEY"] ∧
    "REPLICATE_API_TOKEN" ∉ configEnvKeys env0 ∧
    "LINKED_ACCOUNT_OWNER_ID" ∉ configEnvKeys env0 := by
  refine ⟨rfl, rfl, rfl, ?_, ?_⟩ <;> decide

/-- C7 amended: for the two secrets the code does read, absence passes through
with no local substitution, validation, or exception: with `ACI_API_KEY`
absent the server configuration still contains the key `ACI_API_KEY` bound to
the absent value, and with `GOOGLE_API_KEY` absent the model record's
`api_key` is the absent value.  The other two named secrets never appear as
keys of the configuration record. -/
theorem absent_secrets_pass_through (env : Env)
    (hA : getenv env "ACI_API_KEY" = none)
    (hG : getenv env "GOOGLE_API_KEY" = none) :
    (mcp_config env).mcpServers =
      [("aci_apps",
        ⟨"aci-mcp",
         ["apps-server", "--apps=REPLICATE", "--linked-account-owner-id",
          "parthshr370"],
         [("ACI_API_KEY", none)]⟩)] ∧
    (model env).api_key = none ∧
    "REPLICATE_API_TOKEN" ∉ configEnvKeys env ∧
    "LINKED_ACCOUNT_OWNER_ID" ∉ configEnvKeys env := by
  refine ⟨?_, ?_, ?_, ?_⟩
  · simp [mcp_config, hA]
  · simp [model, ModelFactory.create, hG]
  · simp [configEnvKeys, mcp_config]
  · simp [configEnvKeys, mcp_config]

/-- Witness for `absent_secrets_pass_through` at the all-absent environment. -/
theorem absent_secrets_pass_through_witness :
    (getenv env0 "ACI_API_KEY" = none ∧
     getenv env0 "GOOGLE_API_KEY" = none) ∧
    ((mcp_config env0).mcpServers =
      [("aci_apps",
        ⟨"aci-mcp",
         ["apps-server", "--apps=REPLICATE", "--linked-account-owner-id",
          "parthshr370"],
         [("ACI_API_KEY", none)]⟩)] ∧
     (model env0).api_key = none ∧
     "REPLICATE_API_TOKEN" ∉ configEnvKeys env0 ∧
     "LINKED_ACCOUNT_OWNER_ID" ∉ configEnvKeys env0) :=
  ⟨⟨rfl, rfl⟩, absent_secrets_pass_through env0 rfl rfl⟩

/-- A `.env` file (as a mapping) that binds both secrets the notebook reads,
to show its contents are never observed. -/
def dotfile0 : Env := fun k =>
  if k = "ACI_API_KEY" then some "sk-from-dotenv-file"
  else if k = "GOOGLE_API_KEY" then some "g-from-dotenv-file" else none

/-- C10: `load_dotenv` is imported but never called, so a secret present only
in the `.env` file is read as absent: with an empty ambient environment and a
`.env` file binding `ACI_API_KEY` and `GOOGLE_API_KEY`, the run's reads yield
`none`, the configuration binds `ACI_API_KEY` to `none` and the model's
`api_key` is `none` — whereas after an (uncalled) `load_dotenv` merge both
records would have been different. -/
theorem dotenv_file_secrets_read_as_absent :
    getenv env0 "ACI_API_KEY" = none ∧
    getenv env0 "GOOGLE_API_KEY" = none ∧
    dotfile0 "ACI_API_KEY" = some "sk-from-dotenv-file" ∧
    dotfile0 "GOOGLE_API_KEY" = some "g-from-dotenv-file" ∧
    (mcp_config env0).mcpServers.flatMap (fun p => p.2.env) =
      [("ACI_API_KEY", none)] ∧
    (model env0).api_key = none ∧
    getenv (load_dotenv env0 dotfile0) "ACI_API_KEY" =
      some "sk-from-dotenv-file" ∧
    mcp_config (load_dotenv env0 dotfile0) ≠ mcp_config env0 ∧
    model (load_dotenv env0 dotfile0) ≠ model env0 := by
  refine ⟨rfl, rfl, rfl, ?_, rfl, rfl, rfl, ?_, ?_⟩ <;> decide

lemma agent_system_message_content (env : Env) (tools : List Tool) :
    (agent env tools).system_message.content = system_prompt := rfl

lemma runNotebook_ok_fst {ε : Type} (env : Env) (tools : List Tool)
    (f : String → Response) (ts : List String) :
    (runNotebook env tools (fun t => (Except.ok (f t) : Except ε Response)) ts).1 =
      Event.connect (mcp_config env) ::
        (loopEvents system_prompt (fun t => (f t).msg.content ++ "\n") ts ++
          [Event.disconnect]) := by
  rw [runNotebook_ok]

/-- C2: for every task list, a run in which every agent call succeeds invokes
the agent exactly once per task, in list order (the invocation events project
back to the task list itself); the connect event is the very first event of
the run and the single disconnect event is the very last, so no invocation
happens before the connection is established or after it is torn down. -/
theorem driver_invokes_each_task_once_in_order {ε : Type} (env : Env)
    (tools : List Tool) (f : String → Response) (ts : List String) :
    (runNotebook env tools (fun t => (Except.ok (f t) : Except ε Response)) ts).1.filterMap
        Event.invokedTask = ts ∧
    (runNotebook env tools (fun t => (Except.ok (f t) : Except ε Response)) ts).1.head? =
      some (Event.connect (mcp_config env)) ∧
    (runNotebook env tools (fun t => (Except.ok (f t) : Except ε Response)) ts).1.getLast? =
      some Event.disconnect ∧
    (runNotebook env tools (fun t => (Except.ok (f t) : Except ε Response)) ts).1.count
        Event.disconnect = 1 := by
  rw [runNotebook_ok_fst]
  refine ⟨?_, rfl, ?_, ?_⟩
  · simp [Event.invokedTask, loopEvents_filterMap_invoked]
  · rw [← List.cons_append]
    exact List.getLast?_concat _
  · simp [List.count_cons, List.count_append, loopEvents_count_disconnect]

/-- C3: an exception raised by the agent propagates unhandled and stops the
sequence: when the agent succeeds on the first task and raises on the second
of three, the run invokes only the first two tasks, never reaches the
disconnect call, and surfaces the error. -/
theorem failure_stops_sequence_and_skips_disconnect {ε : Type} (env : Env)
    (tools : List Tool) (t1 t2 t3 : String) (r1 : Response) (e : ε)
    (astep : String → Except ε Response)
    (h1 : astep t1 = Except.ok r1) (h2 : astep t2 = Except.error e) :
    (runNotebook env tools astep [t1, t2, t3]).1.filterMap Event.invokedTask =
      [t1, t2] ∧
    Event.disconnect ∉ (runNotebook env tools astep [t1, t2, t3]).1 ∧
    (runNotebook env tools astep [t1, t2, t3]).2 = some e := by
  have hloop : taskLoop (agent env tools).system_message.content astep
      [t1, t2, t3] =
      ([Event.invoke system_prompt t1,
        Event.printOut (r1.msg.content ++ "\n"),
        Event.invoke system_prompt t2], some e) := by
    simp [taskLoop, h1, h2, agent_system_message_content]
  refine ⟨?_, ?_, ?_⟩ <;> simp [runNotebook, hloop, Event.invokedTask]

/-- The mock agent used by the witnesses: it raises on the task `"task-b"`
and answers `"ok"` on every other task. -/
def astepW : String → Except String Response := fun t =>
  if t = "task-b" then Except.error "boom" else Except.ok ⟨⟨"ok"⟩⟩

/-- Witness for `failure_stops_sequence_and_skips_disconnect` with a concrete
mock agent raising on the second of three tasks. -/
theorem failure_stops_sequence_witness :
    (astepW "task-a" = Except.ok ⟨⟨"ok"⟩⟩ ∧
     astepW "task-b" = Except.error "boom") ∧
    ((runNotebook env0 [] astepW ["task-a", "task-b", "task-c"]).1.filterMap
        Event.invokedTask = ["task-a", "task-b"] ∧
     Event.disconnect ∉
       (runNotebook env0 [] astepW ["task-a", "task-b", "task-c"]).1 ∧
     (runNotebook env0 [] astepW ["task-a", "task-b", "task-c"]).2 =
       some "boom") :=
  ⟨⟨by simp [astepW], by simp [astepW]⟩,
   failure_stops_sequence_and_skips_disconnect env0 [] "task-a" "task-b"
     "task-c" ⟨⟨"ok"⟩⟩ "boom" astepW (by simp [astepW]) (by simp [astepW])⟩

/-- C4: in every run in which all agent calls succeed, the disconnect event
occurs exactly once, and it is the last event of the run — after all task
invocations complete. -/
theorem disconnect_once_after_all_tasks {ε : Type} (env : Env)
    (tools : List Tool) (f : String → Response) (ts : List String) :
    (runNotebook env tools (fun t => (Except.ok (f t) : Except ε Response)) ts).1.count
        Event.disconnect = 1 ∧
    (runNotebook env tools (fun t => (Except.ok (f t) : Except ε Response)) ts).1.getLast? =
      some Event.disconnect := by
  rw [runNotebook_ok_fst]
  constructor
  · simp [List.count_cons, List.count_append, loopEvents_count_disconnect]
  · rw [← List.cons_append]
    exact List.getLast?_concat _

/-- C5: task processing is strictly sequential: for every pair of consecutive
tasks, the print of task `i`'s response content occurs in the trace
(immediately) before the invocation of task `i + 1`. -/
theorem print_precedes_next_invoke {ε : Type} (env : Env) (tools : List Tool)
    (f : String → Response) (ts : List String) (i : Nat)
    (h : i + 1 < ts.length) :
    ∃ pre post,
      (runNotebook env tools (fun t => (Except.ok (f t) : Except ε Response)) ts).1 =
        pre ++ Event.printOut ((f ts[i]).msg.content ++ "\n") ::
          Event.invoke system_prompt ts[i + 1] :: post := by
  obtain ⟨pre, post, hsp⟩ :=
    loopEvents_adjacent system_prompt (fun t => (f t).msg.content ++ "\n")
      ts i h
  refine ⟨Event.connect (mcp_config env) :: pre,
    post ++ [Event.disconnect], ?_⟩
  rw [runNotebook_ok_fst, hsp]
  simp

/-- Witness for `print_precedes_next_invoke` on the notebook's own task list,
between its first and second task. -/
theorem print_precedes_next_invoke_witness :
    0 + 1 < tasks.length ∧
    ∃ pre post,
      (runNotebook env0 []
          (fun t => (Except.ok ((fun _ : String => Response.mk ⟨"ok"⟩) t) :
            Except Unit Response)) tasks).1 =
        pre ++ Event.printOut ("ok" ++ "\n") ::
          Event.invoke system_prompt (tasks.get ⟨1, by decide⟩) :: post :=
  ⟨by decide,
   print_precedes_next_invoke env0 [] (fun _ => Response.mk ⟨"ok"⟩) tasks 0
     (by decide)⟩

/-- C6: the driver writes, per response, exactly one console output whose text
is the response's `msg.content` verbatim followed by the single newline that
`print` appends, and the run's trace contains no other output events; in the
concrete mocked scenario — task list `["find all cars in image X"]` and an
agent answering `"1 car found"` — the whole run is exactly one connect, one
invocation, one print of `"1 car found"` (plus newline), and one disconnect. -/
theorem prints_response_content_verbatim :
    (∀ (env : Env) (tools : List Tool) (f : String → Response)
        (ts : List String),
      (runNotebook env tools (fun t => (Except.ok (f t) : Except Unit Response))
          ts).1.filterMap Event.printedText =
        ts.map (fun t => (f t).msg.content ++ "\n")) ∧
    runNotebook env0 []
        (fun _ => (Except.ok (Response.mk ⟨"1 car found"⟩) :
          Except Unit Response))
        ["find all cars in image X"] =
      ([Event.connect (mcp_config env0),
        Event.invoke system_prompt "find all cars in image X",
        Event.printOut ("1 car found" ++ "\n"),
        Event.disconnect], none) := by
  constructor
  · intro env tools f ts
    rw [runNotebook_ok_fst]
    simp [Event.printedText, loopEvents_filterMap_printed]
  · rfl

/-- C8: the server-configuration record is built once from the startup
environment and handed unchanged to the connection client: the toolkit object
owns exactly `mcp_config env`, and in every run — whatever the agent does and
whether or not it fails — the trace contains exactly one connect event and it
carries exactly that record. -/
theorem config_record_passed_unchanged {ε : Type} (env : Env) :
    (mcp_toolkit env).config_dict = mcp_config env ∧
    ∀ (tools : List Tool) (astep : String → Except ε Response)
      (ts : List String),
      (runNotebook env tools astep ts).1.filterMap Event.connectedConfig =
        [mcp_config env] := by
  refine ⟨rfl, ?_⟩
  intro tools astep ts
  have h2 := taskLoop_no_connect (agent env tools).system_message.content
    astep ts
  cases htl : (taskLoop (agent env tools).system_message.content astep ts).2 with
  | none =>
    simp [runNotebook, htl, Event.connectedConfig, h2, mcp_toolkit]
  | some e =>
    simp [runNotebook, htl, Event.connectedConfig, h2, mcp_toolkit]

/-- C9: the system instruction is the fixed string `system_prompt`: the agent
is constructed with the message `sys_msg` whose content is `system_prompt`,
and every agent-invocation event of every run — for any agent behaviour, any
task list, failing or not — carries exactly that instruction, so it is
identical across all task invocations and never mutated. -/
theorem system_instruction_fixed_across_invocations {ε : Type} (env : Env)
    (tools : List Tool) (astep : String → Except ε Response)
    (ts : List String) (s t : String)
    (hmem : Event.invoke s t ∈ (runNotebook env tools astep ts).1) :
    s = system_prompt ∧
    (agent env tools).system_message = sys_msg ∧
    sys_msg.content = system_prompt := by
  refine ⟨?_, rfl, rfl⟩
  cases htl : (taskLoop (agent env tools).system_message.content astep ts).2 with
  | none =>
    simp [runNotebook, htl] at hmem
    exact (taskLoop_invoke_sysMsg _ astep ts s t hmem).trans
      (agent_system_message_content env tools)
  | some e =>
    simp [runNotebook, htl] at hmem
    exact (taskLoop_invoke_sysMsg _ astep ts s t hmem).trans
      (agent_system_message_content env tools)

/-- Witness for `system_instruction_fixed_across_invocations`: a concrete
one-task run whose trace contains the invocation event carrying
`system_prompt`. -/
theorem system_instruction_fixed_witness :
    (Event.invoke system_prompt "task-a" ∈
      (runNotebook env0 [] astepW ["task-a"]).1) ∧
    (system_prompt = system_prompt ∧
     (agent env0 []).system_message = sys_msg ∧
     sys_msg.content = system_prompt) := by
  have hmem : Event.invoke system_prompt "task-a" ∈
      (runNotebook env0 [] astepW ["task-a"]).1 := by
    simp [runNotebook, taskLoop, astepW, agent_system_message_content]
  exact ⟨hmem,
    system_instruction_fixed_across_invocations env0 [] astepW ["task-a"]
      system_prompt "task-a" hmem⟩
